import Mathlib

/-!
Shallow embedding of the InsightsLM authorization core.

The row-level-security (RLS) policy model is translated from
supabase/migrations/consolidated_migration.sql (the complete
consolidated schema script); the security-answer recovery flow is
translated from src/contexts/AuthContext.tsx (checkSecurityAnswer) and
the ForgotPassword component (handleSecurityAnswerSubmit).

UUIDs are modelled as natural numbers; SQL NULL for auth.uid() is
modelled as Option.none.  Each CREATE POLICY clause becomes one boolean
disjunct of the per-table, per-action decision function.
-/

namespace InsightsLM

abbrev Uuid := Nat

inductive Role where
  | admin
  | user
deriving DecidableEq, Repr

/-- Row of public.profiles (fields relevant to the policies and the
recovery flow: id, role, security_answer_hash). -/
structure ProfileRow where
  id : Uuid
  role : Role
  security_answer_hash : Option String
deriving DecidableEq, Repr

/-- Row of public.notebooks (id, user_id). -/
structure NotebookRow where
  id : Uuid
  user_id : Uuid
deriving DecidableEq, Repr

/-- Row of public.sources (id, notebook_id). -/
structure SourceRow where
  id : Uuid
  notebook_id : Uuid
deriving DecidableEq, Repr

/-- Row of public.notes (id, notebook_id, user_id). -/
structure NoteRow where
  id : Uuid
  notebook_id : Uuid
  user_id : Uuid
deriving DecidableEq, Repr

/-- Row of public.n8n_chat_histories (id serial, session_id uuid). -/
structure ChatRow where
  id : Nat
  session_id : Uuid
deriving DecidableEq, Repr

/-- Row of public.documents; metadata is reduced to the notebook_id key
the policies inspect. -/
structure DocumentRow where
  id : Nat
  metadata_notebook_id : Option Uuid
deriving DecidableEq, Repr

/-- Row of public.security_question_attempts. -/
structure AttemptRow where
  user_id : Uuid
  attempted_at : Nat
  success : Bool
deriving DecidableEq, Repr

/-- The database state the policies consult: profiles (for role
lookups), notebooks (for existence and ownership lookups) and the
security-attempt ledger. -/
structure DbState where
  profiles : List ProfileRow
  notebooks : List NotebookRow
  attempts : List AttemptRow
deriving DecidableEq, Repr

/-- A request principal: auth.uid() as an optional UUID, plus whether
the request runs as the Supabase service_role. -/
structure Principal where
  uid : Option Uuid
  isService : Bool
deriving DecidableEq, Repr

inductive Action where
  | select
  | insert
  | update
  | delete
deriving DecidableEq, Repr

/-- A protected row together with its entity type, the argument of the
policy decision. -/
inductive EntityRow where
  | profile (r : ProfileRow)
  | notebook (r : NotebookRow)
  | source (r : SourceRow)
  | note (r : NoteRow)
  | chat (r : ChatRow)
  | document (r : DocumentRow)
  | attempt (r : AttemptRow)
deriving DecidableEq, Repr

/-- SQL predicate EXISTS (SELECT 1 FROM public.profiles WHERE id =
auth.uid() AND role = admin); false when auth.uid() is NULL. -/
def uidIsAdmin (st : DbState) (uid : Option Uuid) : Bool :=
  st.profiles.any fun pr => uid == some pr.id && pr.role == Role.admin

/-- SQL predicate auth.uid() != x: NULL compared with != yields NULL,
which RLS treats as not allowed, hence false for a missing uid. -/
def uidNe (uid : Option Uuid) (x : Uuid) : Bool :=
  match uid with
  | some u => u != x
  | none => false

/-- SQL predicate EXISTS (SELECT 1 FROM public.notebooks WHERE id =
nbId), used by the chat-history policies on session_id. -/
def notebookExists (st : DbState) (nbId : Uuid) : Bool :=
  st.notebooks.any fun nb => nb.id == nbId

/-- Disjunction of the CREATE POLICY clauses of
consolidated_migration.sql that apply to a request, per table and per
action.  Policies declared TO service_role contribute their clause only
for service requests; all other policies apply to every role. -/
def policyAllows (p : Principal) (a : Action) (e : EntityRow) (st : DbState) : Bool :=
  match e, a with
  | .profile r, .select => p.uid == some r.id || p.isService
  | .profile r, .insert => p.uid == some r.id || p.isService
  | .profile r, .update => p.uid == some r.id || uidIsAdmin st p.uid || p.isService
  | .profile r, .delete => (uidIsAdmin st p.uid && uidNe p.uid r.id) || p.isService
  | .notebook _, .select => true
  | .notebook _, _ => uidIsAdmin st p.uid
  | .source _, .select => true
  | .source _, _ => uidIsAdmin st p.uid
  | .note r, _ => p.uid == some r.user_id || uidIsAdmin st p.uid
  | .chat r, .select => notebookExists st r.session_id || p.isService
  | .chat r, .insert => notebookExists st r.session_id || p.isService
  | .chat _, _ => p.isService
  | .document _, .select => true
  | .document _, .insert => uidIsAdmin st p.uid || p.isService
  | .document _, _ => p.isService
  | .attempt r, .select => p.uid == some r.user_id || p.isService
  | .attempt r, .insert => p.uid == some r.user_id || p.isService
  | .attempt _, _ => p.isService

/-- The policy-engine decision for a request tuple.  The isService
short-circuit is modelled from the spec: the service principal connects
as the Supabase service_role, whose BYPASSRLS attribute is platform
configuration not present in the migrations (spec section 4.3 step 1:
if the principal is the service principal, Allow). -/
def evaluate (p : Principal) (a : Action) (e : EntityRow) (st : DbState) : Bool :=
  p.isService || policyAllows p a e st

/-- USING clause disjunction of the three UPDATE policies on
public.profiles: Users can update their own profile (auth.uid() = id),
Admin can update any profile (admin lookup), and the service_role
policy. -/
def profilesUpdateUsing (p : Principal) (st : DbState) (row : ProfileRow) : Bool :=
  p.uid == some row.id || uidIsAdmin st p.uid || p.isService

/-- Full UPDATE decision on public.profiles: the existing row must pass
some USING clause and the replacement row must pass some WITH CHECK
clause; none of the UPDATE policies declares a WITH CHECK, so each
defaults to its USING clause applied to the new row. -/
def profilesUpdateAllowed (p : Principal) (st : DbState) (oldRow newRow : ProfileRow) : Bool :=
  profilesUpdateUsing p st oldRow && profilesUpdateUsing p st newRow

/-!
Security-answer recovery flow, translated from
src/contexts/AuthContext.tsx and the ForgotPassword component.
The bcrypt comparison is an external library call; it is threaded
through as an explicit comparison function parameter.
-/

/-- Appending a row to public.security_question_attempts (the supabase
insert in checkSecurityAnswer). -/
def logAttempt (st : DbState) (row : AttemptRow) : DbState :=
  { st with attempts := row :: st.attempts }

/-- The profiles lookup by id used in checkSecurityAnswer (select
security_answer_hash where id = userId, single row). -/
def lookupProfile (st : DbState) (userId : Uuid) : Option ProfileRow :=
  st.profiles.find? fun pr => pr.id == userId

/-- Lowercasing a string character by character, the meaning of the
JavaScript toLowerCase() call (modelled over the character list; the
core String.toLower is not kernel-reducible). -/
def toLowerStr (s : String) : String :=
  String.mk (s.data.map Char.toLower)

/-- Removing whitespace from both ends of a string, the meaning of the
JavaScript trim() call. -/
def trimStr (s : String) : String :=
  String.mk (((s.data.dropWhile Char.isWhitespace).reverse.dropWhile
    Char.isWhitespace).reverse)

/-- The normalization applied to the supplied answer before comparison:
answer.toLowerCase().trim(). -/
def normalizeAnswer (answer : String) : String :=
  trimStr (toLowerStr answer)

/-- checkSecurityAnswer from src/contexts/AuthContext.tsx: first log a
failure attempt row, then fetch the stored hash, then compare (via the
external bcrypt comparison, passed as an explicit function), and on a
valid answer additionally log a success row; the comparison result is
returned.  The error and missing-hash early returns yield false. -/
def checkSecurityAnswer (compare : String → String → Bool) (now : Nat)
    (st : DbState) (userId : Uuid) (answer : String) : DbState × Bool :=
  let st1 := logAttempt st ⟨userId, now, false⟩
  match lookupProfile st1 userId with
  | none => (st1, false)
  | some prof =>
    match prof.security_answer_hash with
    | none => (st1, false)
    | some storedHash =>
      let isValid := compare (normalizeAnswer answer) storedHash
      if isValid then (logAttempt st1 ⟨userId, now, true⟩, true)
      else (st1, false)

/-- maxAttempts in the ForgotPassword component. -/
def maxAttempts : Nat := 3

inductive SubmitOutcome where
  | blocked
  | accepted
  | rejected
deriving DecidableEq, Repr

/-- handleSecurityAnswerSubmit from the ForgotPassword component: the
component-local attempts counter blocks the submission once it reaches
maxAttempts, otherwise checkSecurityAnswer runs; a failed check
increments the local counter.  The counter is React state, so it starts
at 0 on every mount of the component. -/
def handleSecurityAnswerSubmit (compare : String → String → Bool) (now : Nat)
    (st : DbState) (attempts : Nat) (userId : Uuid) (answer : String) :
    DbState × SubmitOutcome × Nat :=
  if maxAttempts ≤ attempts then (st, SubmitOutcome.blocked, attempts)
  else
    let res := checkSecurityAnswer compare now st userId answer
    if res.2 then (res.1, SubmitOutcome.accepted, attempts)
    else (res.1, SubmitOutcome.rejected, attempts + 1)

/-- Modelled from the spec: countRecentFailures(userId, window) of
section 4.4.  No repository code computes this count; the
security_question_attempts table and its (user_id, attempted_at) index
exist for it, but nothing reads them.  The count of recorded failure
rows for the user whose timestamp falls within the rolling window
ending at now. -/
def countRecentFailures (st : DbState) (userId : Uuid) (window now : Nat) : Nat :=
  (st.attempts.filter fun a =>
    a.user_id == userId && !a.success && decide (now - a.attempted_at ≤ window)).length

/-- updateUserRoleMutation from useUserProfiles: requires the current
profile to be an admin, requires the target user to exist, rejects a
self role-change with a client-side error, and otherwise rewrites the
role of the target profile row. -/
def updateUserRoleMutation (userProfile : Option ProfileRow) (st : DbState)
    (userId : Uuid) (newRole : Role) : Except String DbState :=
  if !(match userProfile with
       | some up => up.role == Role.admin
       | none => false) then
    Except.error "Unauthorized: Admin access required"
  else
    match lookupProfile st userId with
    | none => Except.error "No user found with that ID"
    | some _ =>
      if userProfile.map (fun up => up.id) == some userId then
        Except.error "You cannot change your own role"
      else
        let newProfiles := st.profiles.map fun pr =>
          if pr.id == userId then { pr with role := newRole } else pr
        Except.ok { st with profiles := newProfiles }

/-- deleteUserMutation from useUserProfiles: requires admin, rejects a
self delete with a client-side error, requires the target to exist, and
otherwise removes the profile row. -/
def deleteUserMutation (userProfile : Option ProfileRow) (st : DbState)
    (userId : Uuid) : Except String DbState :=
  if !(match userProfile with
       | some up => up.role == Role.admin
       | none => false) then
    Except.error "Unauthorized: Admin access required"
  else if userProfile.map (fun up => up.id) == some userId then
    Except.error "You cannot delete your own account"
  else
    match lookupProfile st userId with
    | none => Except.error "No user found with that ID"
    | some _ =>
      let newProfiles := st.profiles.filter fun pr => !(pr.id == userId)
      Except.ok { st with profiles := newProfiles }

/-!
Shared lemmas about the recovery flow.
-/

/-- The ledger after one checkSecurityAnswer call: a failure-marked row
is always prepended, and a success-marked row is additionally prepended
exactly when the returned result is true. -/
theorem checkSecurityAnswer_ledger (compare : String → String → Bool) (now : Nat)
    (st : DbState) (userId : Uuid) (answer : String) :
    ((checkSecurityAnswer compare now st userId answer).1).attempts
      = (if (checkSecurityAnswer compare now st userId answer).2 then
          [(⟨userId, now, true⟩ : AttemptRow)] else [])
        ++ (⟨userId, now, false⟩ : AttemptRow) :: st.attempts := by
  cases h : lookupProfile (logAttempt st ⟨userId, now, false⟩) userId with
  | none =>
    simp only [logAttempt] at h
    simp [checkSecurityAnswer, logAttempt, h]
  | some prof =>
    cases hh : prof.security_answer_hash with
    | none =>
      simp only [logAttempt] at h
      simp [checkSecurityAnswer, logAttempt, h, hh]
    | some storedHash =>
      by_cases hv : compare (normalizeAnswer answer) storedHash
      · simp only [logAttempt] at h
        simp [checkSecurityAnswer, logAttempt, h, hh, hv]
      · simp only [logAttempt] at h
        simp [checkSecurityAnswer, logAttempt, h, hh, hv]

/-!
Theorems settling the specification claims.
-/

/-- Claim C1 (failing input): the self-protection invariant for role
changes does not hold in the policy model.  In the state whose only
profile is user 1 with role user, principal 1 may run an Update on its
own profiles row that replaces role user by role admin: the UPDATE
policy Users can update their own profile (USING auth.uid() = id, no
WITH CHECK restricting the role column) passes on both the old and the
new row, so the engine answers Allow where the claim requires Deny. -/
theorem c1_self_role_change_allowed :
    profilesUpdateAllowed ⟨some 1, false⟩ ⟨[⟨1, Role.user, none⟩], [], []⟩
      ⟨1, Role.user, none⟩ ⟨1, Role.admin, none⟩ = true ∧
    evaluate ⟨some 1, false⟩ Action.update
      (EntityRow.profile ⟨1, Role.user, none⟩) ⟨[⟨1, Role.user, none⟩], [], []⟩ = true ∧
    Role.user ≠ Role.admin := by
  decide

/-- Supporting fact for claim C1: the only guard against a self
role-change is the client-side check in updateUserRoleMutation, which
rejects it with an error message. -/
theorem updateUserRoleMutation_rejects_self (up : ProfileRow) (st : DbState) (r : Role)
    (hadmin : up.role = Role.admin) (hex : lookupProfile st up.id ≠ none) :
    updateUserRoleMutation (some up) st up.id r
      = Except.error "You cannot change your own role" := by
  cases hl : lookupProfile st up.id with
  | none => exact absurd hl hex
  | some q => simp [updateUserRoleMutation, hadmin, hl]

/-- Supporting fact for claim C4: the client-side deleteUserMutation
also rejects a self delete. -/
theorem deleteUserMutation_rejects_self (up : ProfileRow) (st : DbState)
    (hadmin : up.role = Role.admin) :
    deleteUserMutation (some up) st up.id
      = Except.error "You cannot delete your own account" := by
  simp [deleteUserMutation, hadmin]

/-- Claim C2 (failing input): with three failure rows recorded for user
1 inside the rolling window (window 10, now 4), a further
checkSecurityAnswer call with the correct answer still returns true:
the function never reads the attempt ledger.  Even the UI submit
handler lets the call through, because its component-local counter
starts at 0 on a fresh mount. -/
theorem c2_rate_limit_not_enforced :
    countRecentFailures
      ⟨[⟨1, Role.user, some "blue"⟩], [], [⟨1, 1, false⟩, ⟨1, 2, false⟩, ⟨1, 3, false⟩]⟩
      1 10 4 = 3 ∧
    (checkSecurityAnswer (fun a b => a == b) 4
      ⟨[⟨1, Role.user, some "blue"⟩], [], [⟨1, 1, false⟩, ⟨1, 2, false⟩, ⟨1, 3, false⟩]⟩
      1 "blue").2 = true ∧
    (handleSecurityAnswerSubmit (fun a b => a == b) 4
      ⟨[⟨1, Role.user, some "blue"⟩], [], [⟨1, 1, false⟩, ⟨1, 2, false⟩, ⟨1, 3, false⟩]⟩
      0 1 "blue").2.1 = SubmitOutcome.accepted := by
  decide

/-- Claim C3: for authenticated non-service principals the Select
decision on a chat-history row is the same for everyone, and equals
Allow exactly when a notebook with the id of session_id exists,
independent of that notebook owner. -/
theorem c3_chat_select_uniform (p1 p2 : Principal) (st : DbState) (m : ChatRow)
    (h1 : p1.isService = false) (h2 : p2.isService = false)
    (_ha1 : p1.uid.isSome = true) (_ha2 : p2.uid.isSome = true) :
    evaluate p1 Action.select (EntityRow.chat m) st = notebookExists st m.session_id ∧
    evaluate p2 Action.select (EntityRow.chat m) st = notebookExists st m.session_id := by
  constructor <;> simp [evaluate, policyAllows, h1, h2]

/-- Claim C3 witness: two distinct users, a chat row pointing at a
notebook owned by a third user; both decisions equal the existence
check. -/
theorem c3_chat_select_uniform_witness :
    evaluate ⟨some 1, false⟩ Action.select (EntityRow.chat ⟨0, 5⟩)
      ⟨[], [⟨5, 9⟩], []⟩ = notebookExists ⟨[], [⟨5, 9⟩], []⟩ 5 ∧
    evaluate ⟨some 2, false⟩ Action.select (EntityRow.chat ⟨0, 5⟩)
      ⟨[], [⟨5, 9⟩], []⟩ = notebookExists ⟨[], [⟨5, 9⟩], []⟩ 5 :=
  c3_chat_select_uniform ⟨some 1, false⟩ ⟨some 2, false⟩ ⟨[], [⟨5, 9⟩], []⟩ ⟨0, 5⟩
    rfl rfl rfl rfl

/-- Claim C4: a non-service admin principal can never delete its own
profiles row: the only applicable DELETE policy conjoins the admin
lookup with auth.uid() != profiles.id, which fails on the own row. -/
theorem c4_admin_cannot_delete_self_profile (p : Principal) (st : DbState) (r : ProfileRow)
    (hs : p.isService = false) (_hadmin : uidIsAdmin st p.uid = true)
    (hself : p.uid = some r.id) :
    evaluate p Action.delete (EntityRow.profile r) st = false := by
  simp [evaluate, policyAllows, hs, hself, uidNe]

/-- Claim C4 witness: admin user 1 deleting its own profile row is
denied. -/
theorem c4_admin_cannot_delete_self_profile_witness :
    evaluate ⟨some 1, false⟩ Action.delete (EntityRow.profile ⟨1, Role.admin, none⟩)
      ⟨[⟨1, Role.admin, none⟩], [], []⟩ = false :=
  c4_admin_cannot_delete_self_profile ⟨some 1, false⟩ ⟨[⟨1, Role.admin, none⟩], [], []⟩
    ⟨1, Role.admin, none⟩ rfl (by decide) rfl

/-- Claim C5: every principal, of any role, may Select every notebook
row in every state (policy All users can view all notebooks, USING
true). -/
theorem c5_notebook_select_allow (p : Principal) (st : DbState) (n : NotebookRow) :
    evaluate p Action.select (EntityRow.notebook n) st = true := by
  simp [evaluate, policyAllows]

/-- Claim C6: a non-owner, non-admin, non-service principal is denied
every action on a note it does not own: each of the four notes policies
is the disjunction of ownership with the admin lookup. -/
theorem c6_note_nonowner_deny (p : Principal) (st : DbState) (n : NoteRow) (a : Action)
    (hs : p.isService = false) (hadmin : uidIsAdmin st p.uid = false)
    (howner : (p.uid == some n.user_id) = false) :
    evaluate p a (EntityRow.note n) st = false := by
  cases a <;> simp [evaluate, policyAllows, hs, hadmin, howner]

/-- Claim C6 witness: user 2 (not an admin) acting on a note owned by
user 1 is denied, here for Select. -/
theorem c6_note_nonowner_deny_witness :
    evaluate ⟨some 2, false⟩ Action.select (EntityRow.note ⟨10, 5, 1⟩)
      ⟨[⟨2, Role.user, none⟩], [], []⟩ = false :=
  c6_note_nonowner_deny ⟨some 2, false⟩ ⟨[⟨2, Role.user, none⟩], [], []⟩ ⟨10, 5, 1⟩
    Action.select rfl (by decide) (by decide)

/-- Claim C7: when no notebook carries the id referenced by a chat row
session_id, Select and Insert on that row are both denied for every
non-service principal; the decision functions are total, so the missing
reference can never surface as a crash or an Allow. -/
theorem c7_chat_missing_notebook_deny (p : Principal) (st : DbState) (m : ChatRow)
    (hs : p.isService = false)
    (hmiss : notebookExists st m.session_id = false) :
    evaluate p Action.select (EntityRow.chat m) st = false ∧
    evaluate p Action.insert (EntityRow.chat m) st = false := by
  constructor <;> simp [evaluate, policyAllows, hs, hmiss]

/-- Claim C7 witness: user 1 on a chat row whose session_id 42 matches
no notebook in the empty registry. -/
theorem c7_chat_missing_notebook_deny_witness :
    evaluate ⟨some 1, false⟩ Action.select (EntityRow.chat ⟨0, 42⟩) ⟨[], [], []⟩ = false ∧
    evaluate ⟨some 1, false⟩ Action.insert (EntityRow.chat ⟨0, 42⟩) ⟨[], [], []⟩ = false :=
  c7_chat_missing_notebook_deny ⟨some 1, false⟩ ⟨[], [], []⟩ ⟨0, 42⟩ rfl (by decide)

/-- Claim C8: every request of the service principal is allowed, for
every action, every entity type and every state. -/
theorem c8_service_allow_all (p : Principal) (a : Action) (e : EntityRow) (st : DbState)
    (hs : p.isService = true) :
    evaluate p a e st = true := by
  simp [evaluate, hs]

/-- Claim C8 witness: a service request inserting a notebook row is
allowed. -/
theorem c8_service_allow_all_witness :
    evaluate ⟨none, true⟩ Action.insert (EntityRow.notebook ⟨7, 1⟩) ⟨[], [], []⟩ = true :=
  c8_service_allow_all ⟨none, true⟩ Action.insert (EntityRow.notebook ⟨7, 1⟩)
    ⟨[], [], []⟩ rfl

/-- Claim C9: in every execution of checkSecurityAnswer, whatever the
comparison function, state and answer, the returned state already
contains the attempt row logged for the user: the ledger insert
precedes the verification whose result is returned, in every branch. -/
theorem c9_attempt_logged_before_outcome (compare : String → String → Bool) (now : Nat)
    (st : DbState) (userId : Uuid) (answer : String) :
    (⟨userId, now, false⟩ : AttemptRow)
      ∈ ((checkSecurityAnswer compare now st userId answer).1).attempts := by
  rw [checkSecurityAnswer_ledger]
  simp

/-- Claim C10: one call to checkSecurityAnswer extends the ledger by
exactly one failure-marked row for the user, plus one success-marked
row exactly when the returned result is true; hence a successful
verification leaves both a failure row and a success row. -/
theorem c10_ledger_rows_per_call (compare : String → String → Bool) (now : Nat)
    (st : DbState) (userId : Uuid) (answer : String) :
    ((checkSecurityAnswer compare now st userId answer).1).attempts
      = (if (checkSecurityAnswer compare now st userId answer).2 then
          [(⟨userId, now, true⟩ : AttemptRow)] else [])
        ++ (⟨userId, now, false⟩ : AttemptRow) :: st.attempts :=
  checkSecurityAnswer_ledger compare now st userId answer

end InsightsLM
